import Mathlib

/-!
Shallow embedding of the YouTube subtitle extractor
(`src/main.py`, `src/backend/app/main.py`, `src/backend/app/proxy_manager.py`)
and proofs about its owned logic: video-id resolution, the transcript-api /
yt-dlp fallback decision tree, language-preference subtitle selection,
subtitle payload normalisation, the background retry orchestrator, the
proxy cache, and the result endpoint.
-/

namespace YSE

/-! ### Python string primitives -/

/-- Python whitespace characters stripped by `str.strip()` (ASCII range). -/
def pyWs (c : Char) : Bool :=
  c = ' ' || c = '\t' || c = '\n' || c = '\r' || c = '\x0b' || c = '\x0c'

/-- Python `line.strip()` on a character list: drop whitespace from both ends. -/
def pyStrip (cs : List Char) : List Char :=
  ((cs.dropWhile pyWs).reverse.dropWhile pyWs).reverse

/-- Python `str.strip()` on a `String`. -/
def pyStripS (s : String) : String := String.mk (pyStrip s.toList)

/-- Python `pat in hay` substring test, on character lists. -/
def containsSub (hay pat : List Char) : Bool :=
  match hay with
  | [] => pat.isEmpty
  | _ :: t => pat.isPrefixOf hay || containsSub t pat

/-- Python `pat in hay` substring test, on strings. -/
def strContains (hay pat : String) : Bool := containsSub hay.toList pat.toList

/-- Python `str.isdigit()` restricted to ASCII digits: nonempty and all digits. -/
def pyIsDigit (cs : List Char) : Bool := !cs.isEmpty && cs.all Char.isDigit

/-- Python `s.split(sep)` for a one-character separator, on character
lists: the empty string splits to `[""]`, and every separator occurrence
starts a new (possibly empty) field. -/
def splitOnCharAux (sep : Char) : List Char → List (List Char)
  | [] => [[]]
  | c :: rest =>
    match splitOnCharAux sep rest with
    | [] => [[]]
    | h :: t => if c = sep then [] :: h :: t else (c :: h) :: t

/-- Python `s.split(sep)` for a one-character separator, on strings. -/
def pySplitChar (sep : Char) (s : String) : List String :=
  (splitOnCharAux sep s.toList).map String.mk

/-- ASCII lowercase of one character. -/
def lowerChar (c : Char) : Char :=
  if 'A' ≤ c ∧ c ≤ 'Z' then Char.ofNat (c.toNat + 32) else c

/-- Python `str.lower()` (ASCII behaviour). -/
def pyLower (s : String) : String := String.mk (s.toList.map lowerChar)

/-! ### `SubtitleExtractor._extract_video_id` (src/backend/app/main.py lines 79-96)

The three regular expressions are embedded as literal-prefix scans: each
pattern is a choice of literal prefixes followed by the capture group
`[^&\n?#]+`.  `re.search` semantics: try every start position left to
right; at one position try the alternatives left to right; the capture is
the greedy maximal run of characters outside `&`, newline, `?`, `#`, and
must be nonempty. -/

/-- A character admissible in the capture group `[^&\n?#]+`. -/
def captureOk (c : Char) : Bool :=
  !(c = '&' || c = '\n' || c = '?' || c = '#')

/-- At a fixed start position, try each literal-prefix alternative in order;
on a prefix match take the greedy nonempty capture after it. -/
def tryPrefixes (ps : List (List Char)) (cs : List Char) : Option (List Char) :=
  match ps with
  | [] => none
  | p :: rest =>
    if p.isPrefixOf cs then
      let cap := (cs.drop p.length).takeWhile captureOk
      if cap.isEmpty then tryPrefixes rest cs else some cap
    else tryPrefixes rest cs

/-- Python `re.search`: scan start positions left to right. -/
def searchCapture (ps : List (List Char)) : List Char → Option (List Char)
  | [] => none
  | c :: t =>
    match tryPrefixes ps (c :: t) with
    | some cap => some cap
    | none => searchCapture ps t

/-- Alternatives of `(?:youtube\.com\/watch\?v=|youtu\.be\/)([^&\n?#]+)`. -/
def pat1 : List (List Char) :=
  ["youtube.com/watch?v=".toList, "youtu.be/".toList]

/-- Alternative of `youtube\.com\/embed\/([^&\n?#]+)`. -/
def pat2 : List (List Char) := ["youtube.com/embed/".toList]

/-- Alternative of `youtube\.com\/v\/([^&\n?#]+)`. -/
def pat3 : List (List Char) := ["youtube.com/v/".toList]

/-- A character of the class `[a-zA-Z0-9_-]`. -/
def idChar (c : Char) : Bool := c.isAlphanum || c = '_' || c = '-'

/-- Python `re.match(r'^[a-zA-Z0-9_-]+$', s)` is truthy: in non-MULTILINE
mode `$` matches at the end of the string or just before a newline that is
the last character, so the test accepts a nonempty all-class string and
also a nonempty all-class string followed by one final newline. -/
def reMatchIdDollar (cs : List Char) : Bool :=
  if cs.getLast? = some '\n' then
    let b := cs.dropLast
    !b.isEmpty && b.all idChar
  else
    !cs.isEmpty && cs.all idChar

/-- Embedding of `SubtitleExtractor._extract_video_id`: first capture of the first
matching pattern, else the string itself when `len(url) == 11` and the
id-class regex matches, else `None`. -/
def extractVideoId (url : String) : Option String :=
  let cs := url.toList
  match searchCapture pat1 cs with
  | some cap => some (String.mk cap)
  | none =>
    match searchCapture pat2 cs with
    | some cap => some (String.mk cap)
    | none =>
      match searchCapture pat3 cs with
      | some cap => some (String.mk cap)
      | none =>
        if cs.length = 11 && reMatchIdDollar cs then some url else none

/-! ### Subtitle payload normalisation
(`SubtitleExtractor._fetch_subtitle_content`, src/backend/app/main.py
lines 296-328) -/

/-- One segment of a JSON3 event: a dict that may carry a `utf8` field. -/
structure Seg where
  utf8 : Option String
deriving DecidableEq, Repr

/-- One JSON3 event: a dict that may carry a `segs` list. -/
structure Json3Event where
  segs : Option (List Seg)
deriving DecidableEq, Repr

/-- The JSON3 loop (lines 306-310): concatenate, in order, `seg.get("utf8", "")`
over the segments of every event that has a `segs` key. -/
def json3Text (events : List Json3Event) : String :=
  events.foldl
    (fun acc ev =>
      match ev.segs with
      | none => acc
      | some segs => segs.foldl (fun a s => a ++ s.utf8.getD "") acc)
    ""

/-- Line filter of the VTT/SRT branch (line 321): kept when the stripped
line is nonempty, the raw line does not contain `-->`, and the raw line is
not `isdigit()`. -/
def vttKeep (line : String) : Bool :=
  !(pyStrip line.toList).isEmpty
    && !containsSub line.toList "-->".toList
    && !pyIsDigit line.toList

/-- The VTT/SRT branch (lines 314-324): split on newline, keep the filtered
lines stripped, join with newline. -/
def vttText (content : String) : String :=
  let lines := pySplitChar '\n' content
  let subtitle_text :=
    lines.foldl (fun acc line =>
      if vttKeep line then acc ++ [pyStripS line] else acc) []
  String.intercalate "\n" subtitle_text

/-- One entry of a `subtitles[lang]` format list, fused with the payload
the `requests.get` of its `url` would return: `textPayload` is
`response.text`, `jsonPayload` is `response.json()` (`none` when the body
is not JSON, which raises and is caught returning `None`). -/
structure SubFmt where
  ext : String
  textPayload : String
  jsonPayload : Option (List Json3Event)
deriving DecidableEq, Repr

/-- Embedding of `SubtitleExtractor._fetch_subtitle_content`: `None` on an empty list;
JSON3 branch when the first format has ext `json3`, otherwise the VTT/SRT
branch; returns the text/language dict. -/
def fetchSubtitleContent (subtitle_list : List SubFmt) (language : String) :
    Option (String × String) :=
  match subtitle_list with
  | [] => none
  | f :: _ =>
    if f.ext = "json3" then
      match f.jsonPayload with
      | none => none
      | some events => some (json3Text events, language)
    else
      some (vttText f.textPayload, language)

/-- The claim's wording of the VTT/SRT normalisation, for comparison with
the source fold: the stripped kept lines, in order, joined with newline. -/
def claimedVttText (content : String) : String :=
  String.intercalate "\n" (((pySplitChar '\n' content).filter vttKeep).map pyStripS)

/-- The claim's wording of the JSON3 normalisation, for comparison with
the source fold: the concatenation, in order, of the `utf8` fields of all
segments of all events that have segments. -/
def claimedJson3Text (events : List Json3Event) : String :=
  String.join ((events.filterMap Json3Event.segs).map
    (fun segs => String.join (segs.map (fun s => s.utf8.getD ""))))

/-! ### Language-preference selection
(`SubtitleExtractor._get_best_subtitles`, src/backend/app/main.py
lines 273-294).  `subtitles` and `automatic_captions` are Python dicts;
they are embedded as association lists in insertion order with distinct
keys, looked up by first match. -/

/-- The dict type `info.get("subtitles", {})` / `info.get("automatic_captions", {})`. -/
def SubDict := List (String × List SubFmt)

/-- The loop `for lang in preferred_languages: if lang in d: ...`:
first preferred language present in the dict, with its value. -/
def firstPref (prefs : List String) (d : SubDict) :
    Option (String × List SubFmt) :=
  match prefs with
  | [] => none
  | lang :: rest =>
    match List.lookup lang d with
    | some v => some (lang, v)
    | none => firstPref rest d

/-- Embedding of `SubtitleExtractor._get_best_subtitles`: manual track in preference
order, then automatic track in preference order, then first manual, then
first automatic, else `None`. -/
def getBestSubtitles (prefs : List String) (subtitles automatic_captions : SubDict) :
    Option (String × String) :=
  match firstPref prefs subtitles with
  | some (lang, lst) => fetchSubtitleContent lst lang
  | none =>
    match firstPref prefs automatic_captions with
    | some (lang, lst) => fetchSubtitleContent lst (lang ++ " (Auto-generated)")
    | none =>
      match subtitles with
      | (lang, lst) :: _ => fetchSubtitleContent lst lang
      | [] =>
        match automatic_captions with
        | (lang, lst) :: _ => fetchSubtitleContent lst (lang ++ " (Auto-generated)")
        | [] => none

/-! ### The extract decision tree
(`SubtitleExtractor.extract`, src/backend/app/main.py lines 98-126).

The two external calls are parameters of the embedding: the outcome the
transcript-fetch library would produce for the resolved video id, and the
outcome the yt-dlp fallback would produce for the URL.
`_extract_with_transcript_api` either returns the success dict of lines
190-195 (content, language, title all present) or raises;
`_extract_with_ytdlp` catches every exception internally and returns
either the success dict of lines 260-265 or a failure dict with an error
message (lines 267 and 271). -/

/-- Exception classes the transcript-fetch call can raise, as matched by
the handlers of lines 116 and 120 and the outer handler of line 124
(`cnrtOther` stands for `CouldNotRetrieveTranscript` itself or any of its
subclasses other than the four named ones; `otherExn` for any exception
outside that hierarchy). -/
inductive ApiExn
  | transcriptsDisabled
  | noTranscriptFound
  | videoUnavailable
  | youTubeRequestFailed
  | cnrtOther
  | otherExn
deriving DecidableEq, Repr

/-- The dict returned by `extract` and its helpers, with Python's missing
keys as `none`. -/
structure ExtractResult where
  success : Bool
  content : Option String
  language : Option String
  title : Option String
  error : Option String
deriving DecidableEq, Repr

/-- A success dict `{"success": True, "content": c, "language": l, "title": t}`. -/
def mkSuccess (c l t : String) : ExtractResult :=
  ⟨true, some c, some l, some t, none⟩

/-- A failure dict `{"success": False, "error": e}`. -/
def mkFailure (e : String) : ExtractResult :=
  ⟨false, none, none, none, some e⟩

/-- Result of `extract` instrumented with which external libraries were
invoked. -/
structure ExtractTrace where
  result : ExtractResult
  calledApi : Bool
  calledYtdlp : Bool
deriving DecidableEq, Repr

/-- Embedding of `SubtitleExtractor.extract`: resolve the video id, fail without any
library call when it does not resolve; otherwise call the transcript-fetch
library; fall back to yt-dlp exactly on `TranscriptsDisabled` and
`NoTranscriptFound`; turn the other transcript-api exceptions of line 120
into a failure dict; the outer handler of line 124 turns any other
exception into a failure dict with the raw message. -/
def extract (url : String)
    (api : Except (ApiExn × String) (String × String × String))
    (ytdlp : Except String (String × String × String)) : ExtractTrace :=
  match extractVideoId url with
  | none => ⟨mkFailure "無法從 URL 中提取影片 ID", false, false⟩
  | some _ =>
    match api with
    | .ok (c, l, t) => ⟨mkSuccess c l t, true, false⟩
    | .error (exn, msg) =>
      match exn with
      | .transcriptsDisabled | .noTranscriptFound =>
        match ytdlp with
        | .ok (c, l, t) => ⟨mkSuccess c l t, true, true⟩
        | .error e => ⟨mkFailure e, true, true⟩
      | .videoUnavailable | .youTubeRequestFailed | .cnrtOther =>
        ⟨mkFailure ("YouTube API 錯誤: " ++ msg), true, false⟩
      | .otherExn => ⟨mkFailure msg, true, false⟩

/-! ### Task store state
(src/backend/app/main.py lines 46-50 and 408-417) -/

/-- The four values of the `TaskStatus` string enum. -/
inductive TaskStatus
  | pending
  | processing
  | completed
  | failed
deriving DecidableEq, Repr

/-- The string value of each enum member. -/
def statusStr : TaskStatus → String
  | .pending => "pending"
  | .processing => "processing"
  | .completed => "completed"
  | .failed => "failed"

/-- The mutable fields of one `task_store` entry that the orchestrator and
the endpoints touch. -/
structure TaskState where
  status : TaskStatus
  progress : Nat
  message : String
  content : Option String
  language : Option String
  title : Option String
deriving DecidableEq, Repr

/-- The entry created by the submit endpoint (lines 408-417). -/
def initialTask : TaskState :=
  ⟨.pending, 0, "Task queued", none, none, none⟩

/-! ### Proxy manager
(`src/backend/app/proxy_manager.py`).  Wall-clock time is a `Nat` of
seconds; the random draws of `random.choice` / `random.sample` are
explicit index parameters. -/

/-- The mutable state of a `ProxyManager`. -/
structure ProxyState where
  proxy_list : List String
  last_fetch : Option Nat
deriving DecidableEq, Repr

/-- Value of `self.cache_duration = timedelta(hours=1)` in seconds. -/
def cacheDurationSecs : Nat := 3600

/-- Embedding of `ProxyManager._should_refresh` (lines 27-35). -/
def shouldRefresh (st : ProxyState) (now : Nat) : Bool :=
  if st.proxy_list.isEmpty then true
  else
    match st.last_fetch with
    | none => true
    | some t => decide (cacheDurationSecs < now - t)

/-- One iteration of the parsing loop of `fetch_proxies` (lines 51-58):
a stripped nonempty line splitting on `:` into exactly four parts yields
`http://USERNAME:PASSWORD@IP:PORT`. -/
def parseProxyLine (line : String) : Option String :=
  if (pyStrip line.toList).isEmpty then none
  else
    match pySplitChar ':' (pyStripS line) with
    | [ip, port, username, password] =>
      some ("http://" ++ username ++ ":" ++ password ++ "@" ++ ip ++ ":" ++ port)
    | _ => none

/-- Embedding of `ProxyManager.fetch_proxies` (lines 37-66).  `response` is the body the
remote feed would return; `none` covers both a missing
`WEBSHARE_PROXY_LIST_URL` and a request exception, in which cases the
state is unchanged (the list is only reassigned after a successful
request) and `False` is returned. -/
def fetchProxies (st : ProxyState) (now : Nat) (response : Option String) :
    ProxyState × Bool :=
  match response with
  | none => (st, false)
  | some text =>
    let lines := pySplitChar '\n' (pyStripS text)
    ({ proxy_list := lines.filterMap parseProxyLine, last_fetch := some now }, true)

/-- Python `random.sample(l, k)` draws at pairwise-distinct positions; the drawn
positions are the explicit parameter `idxs`. -/
def pySample (l : List String) (idxs : List Nat) : List String :=
  idxs.filterMap (fun i => l[i]?)

/-- Predicate stating `idxs` is a draw `random.sample` could make for `k` elements of `l`:
pairwise-distinct in-range positions, `k` of them. -/
def validSample (l : List String) (k : Nat) (idxs : List Nat) : Prop :=
  idxs.Nodup ∧ (∀ i ∈ idxs, i < l.length) ∧ idxs.length = k

/-- The manager state after the conditional refresh that both getters
perform first (`if self._should_refresh(): self.fetch_proxies()`). -/
def refreshedState (st : ProxyState) (now : Nat) (response : Option String) :
    ProxyState :=
  if shouldRefresh st now then (fetchProxies st now response).1 else st

/-- Embedding of `ProxyManager.get_random_proxy` (lines 68-79): refresh when needed,
`None` on an empty list, else the element at the random position. -/
def getRandomProxy (st : ProxyState) (now : Nat) (response : Option String)
    (idx : Nat) : ProxyState × Option String :=
  let st1 := refreshedState st now response
  if st1.proxy_list.isEmpty then (st1, none)
  else (st1, st1.proxy_list[idx]?)

/-- Embedding of `ProxyManager.get_multiple_proxies` (lines 81-95): refresh when needed,
`[]` on an empty list, else `random.sample(self.proxy_list, min(count, len))`. -/
def getMultipleProxies (st : ProxyState) (now : Nat) (response : Option String)
    (count : Nat) (idxs : List Nat) : ProxyState × List String :=
  let st1 := refreshedState st now response
  if st1.proxy_list.isEmpty then (st1, [])
  else
    let available_count := min count st1.proxy_list.length
    (st1, pySample st1.proxy_list (idxs.take available_count))

/-! ### Background retry orchestrator
(`process_subtitle_extraction`, src/backend/app/main.py lines 331-389).

Each loop iteration is driven by the outcome the `extractor.extract` call
would produce: a success dict, a failure dict, or an exception escaping
`asyncio.run`.  The store writes are recorded as an explicit trace; the
extraction call is recorded together with the proxy it is routed through
(`SubtitleExtractor()` is constructed with no proxy argument and
`extract(url, language_preference)` carries none, so the recorded proxy is
always `none`). -/

/-- Outcome of one `asyncio.run(extractor.extract(...))` call. -/
inductive AttemptOutcome
  | success (content language title : String)
  | failure (error : String)
  | exn (msg : String)
deriving DecidableEq, Repr

/-- One write to the task-store entry, one sleep, or one extraction call. -/
inductive Write
  | wStatus (s : TaskStatus)
  | wProgress (p : Nat)
  | wContent (s : String)
  | wLanguage (s : String)
  | wTitle (s : String)
  | wMessage (s : String)
  | wSleep (secs : Nat)
  | wExtractCall (proxy : Option String)
deriving DecidableEq, Repr

/-- The error-message translation of the final failed attempt
(lines 365-373), first matching rule wins. -/
def translateError (e : String) : String :=
  if strContains (pyLower e) "bot" || strContains (pyLower e) "sign in" then
    "YouTube 機器人檢測：" ++ e ++ "。建議等待 5-10 分鐘後重試。"
  else if strContains e "403" || strContains (pyLower e) "forbidden" then
    "訪問被拒：" ++ e ++ "。可能是 IP 被暫時限制，請稍後重試。"
  else if strContains (pyLower e) "no subtitles" then
    "此影片沒有可用的字幕。"
  else e

/-- The `for attempt in range(max_retries)` loop: `outcomes` lists the
outcomes of the remaining iterations (`max_retries` entries at the top
call), `attempt` is the loop index.  Each iteration writes PROCESSING and
`25 + attempt*20`, sleeps 10 s when `attempt > 0`, runs the extraction,
and finishes or retries exactly as lines 349-388. -/
def runLoop (maxRetries : Nat) :
    List AttemptOutcome → Nat → TaskState → List Write × TaskState
  | [], _, st => ([], st)
  | o :: rest, attempt, st =>
    let p := 25 + attempt * 20
    let st1 := { st with status := TaskStatus.processing, progress := p }
    let pre := [Write.wStatus .processing, Write.wProgress p]
      ++ (if attempt > 0 then [Write.wSleep 10] else [])
      ++ [Write.wExtractCall none]
    match o with
    | .success c l t =>
      let msg := "Successfully extracted subtitles (" ++ l ++ ")"
      (pre ++ [Write.wStatus .completed, Write.wContent c, Write.wLanguage l,
               Write.wTitle t, Write.wProgress 100, Write.wMessage msg],
       { st1 with status := .completed, content := some c, language := some l,
                  title := some t, progress := 100, message := msg })
    | .failure e =>
      if attempt = maxRetries - 1 then
        let msg := translateError e
        (pre ++ [Write.wStatus .failed, Write.wProgress 0, Write.wMessage msg],
         { st1 with status := .failed, progress := 0, message := msg })
      else
        let r := runLoop maxRetries rest (attempt + 1) st1
        (pre ++ r.1, r.2)
    | .exn m =>
      if attempt = maxRetries - 1 then
        let msg := "提取失敗（已重試 " ++ toString maxRetries ++ " 次）: " ++ m
        (pre ++ [Write.wStatus .failed, Write.wProgress 0, Write.wMessage msg],
         { st1 with status := .failed, progress := 0, message := msg })
      else
        let r := runLoop maxRetries rest (attempt + 1) st1
        (pre ++ r.1, r.2)

/-- Embedding of `process_subtitle_extraction` with `max_retries = 3`,
`retry_delay = 10`, starting from the freshly submitted task. -/
def processSubtitleExtraction (outcomes : List AttemptOutcome) :
    List Write × TaskState :=
  runLoop 3 outcomes 0 initialTask

/-- The submit endpoint's writes to the fresh entry (lines 408-417). -/
def submitWrites : List Write :=
  [Write.wStatus .pending, Write.wProgress 0, Write.wMessage "Task queued"]

/-- Lifetime write trace of one task: submission followed by the
background orchestrator. -/
def fullTrace (outcomes : List AttemptOutcome) : List Write :=
  submitWrites ++ (processSubtitleExtraction outcomes).1

/-- The successive values written to the `status` field. -/
def statusTrace (ws : List Write) : List TaskStatus :=
  ws.filterMap (fun w => match w with | .wStatus s => some s | _ => none)

/-- The successive values written to the `progress` field. -/
def progressTrace (ws : List Write) : List Nat :=
  ws.filterMap (fun w => match w with | .wProgress p => some p | _ => none)

/-- The sleeps performed, in seconds. -/
def sleepTrace (ws : List Write) : List Nat :=
  ws.filterMap (fun w => match w with | .wSleep s => some s | _ => none)

/-- The proxy carried by each extraction call, in order. -/
def extractProxies (ws : List Write) : List (Option String) :=
  ws.filterMap (fun w => match w with | .wExtractCall p => some p | _ => none)

/-- Whether an attempt outcome is the success dict. -/
def isSuccess : AttemptOutcome → Bool
  | .success _ _ _ => true
  | _ => false

/-! ### Result endpoint
(`get_task_result`, src/backend/app/main.py lines 442-462) -/

/-- The `SubtitleResponse` model (lines 65-70). -/
structure SubtitleResponse where
  task_id : String
  status : TaskStatus
  content : Option String
  language : Option String
  message : String
deriving DecidableEq, Repr

/-- Embedding of `get_task_result`: 404 for an unknown id, 400 for a task not yet
COMPLETED, otherwise the stored fields; the (unchanged) store is returned
alongside to make the absence of writes explicit. -/
def getTaskResult (store : List (String × TaskState)) (task_id : String) :
    Except (Nat × String) SubtitleResponse × List (String × TaskState) :=
  match List.lookup task_id store with
  | none => (.error (404, "Task not found"), store)
  | some task =>
    if task.status ≠ TaskStatus.completed then
      (.error (400, "Task is " ++ statusStr task.status ++ ". Message: "
                      ++ task.message), store)
    else
      (.ok ⟨task_id, task.status, task.content, task.language, task.message⟩,
       store)

/-! ## Theorems -/

/-- C6: `get_task_result` answers from the store and never writes it: the
store component is returned unchanged; a stored response (with the stored
content, language and message) comes back exactly when the id is present
with status COMPLETED; an absent id yields HTTP 404 and a present
non-COMPLETED task yields HTTP 400 with the status/message detail. -/
theorem c6_result_endpoint (store : List (String × TaskState)) (task_id : String) :
    (getTaskResult store task_id).2 = store
    ∧ ((∃ r, (getTaskResult store task_id).1 = Except.ok r)
        ↔ ∃ t, List.lookup task_id store = some t ∧ t.status = TaskStatus.completed)
    ∧ (List.lookup task_id store = none →
        (getTaskResult store task_id).1 = Except.error (404, "Task not found"))
    ∧ (∀ t, List.lookup task_id store = some t → t.status ≠ TaskStatus.completed →
        (getTaskResult store task_id).1
          = Except.error (400, "Task is " ++ statusStr t.status ++ ". Message: "
                                ++ t.message))
    ∧ (∀ t, List.lookup task_id store = some t → t.status = TaskStatus.completed →
        (getTaskResult store task_id).1
          = Except.ok ⟨task_id, t.status, t.content, t.language, t.message⟩) := by
  unfold getTaskResult
  cases h : List.lookup task_id store with
  | none => simp
  | some t =>
    by_cases ht : t.status = TaskStatus.completed <;> simp [ht]

/-- C6 witness: a store holding one COMPLETED task, queried at its id. -/
theorem c6_result_endpoint_witness :
    (getTaskResult
        [("t1", ⟨TaskStatus.completed, 100, "done", some "text", some "en", some "T"⟩)]
        "t1").1
      = Except.ok ⟨"t1", TaskStatus.completed, some "text", some "en", "done"⟩ := by
  have h := c6_result_endpoint
    [("t1", ⟨TaskStatus.completed, 100, "done", some "text", some "en", some "T"⟩)] "t1"
  exact h.2.2.2.2 _ (by rfl) (by rfl)

/-- C1: `extract` is a sequential decision tree over the two external
libraries.  Whenever the URL resolves to a video id the transcript-fetch
library is called first (and it is called only then); the yt-dlp fallback
is invoked if and only if that first call raises `TranscriptsDisabled` or
`NoTranscriptFound`; on `VideoUnavailable`, `YouTubeRequestFailed` or any
other `CouldNotRetrieveTranscript`, `extract` returns the failure dict of
line 122 without invoking the fallback. -/
theorem c1_fallback_decision_tree (url : String)
    (api : Except (ApiExn × String) (String × String × String))
    (ytdlp : Except String (String × String × String)) :
    ((extract url api ytdlp).calledApi = true ↔ extractVideoId url ≠ none)
    ∧ ((extract url api ytdlp).calledYtdlp = true
        ↔ extractVideoId url ≠ none
          ∧ ∃ exn msg, api = Except.error (exn, msg)
              ∧ (exn = ApiExn.transcriptsDisabled ∨ exn = ApiExn.noTranscriptFound))
    ∧ (∀ exn msg, extractVideoId url ≠ none →
        api = Except.error (exn, msg) →
        exn = ApiExn.videoUnavailable ∨ exn = ApiExn.youTubeRequestFailed
          ∨ exn = ApiExn.cnrtOther →
        (extract url api ytdlp).result = mkFailure ("YouTube API 錯誤: " ++ msg)
          ∧ (extract url api ytdlp).calledYtdlp = false) := by
  unfold extract
  cases hv : extractVideoId url with
  | none => simp
  | some vid =>
    rcases api with ⟨exn, msg⟩ | ⟨c, l, t⟩
    · cases exn <;> rcases ytdlp with e | ⟨yc, yl, yt⟩ <;> simp
    · simp

/-- C1 witness: a resolving URL whose transcript-api call raises
`NoTranscriptFound`, so the fallback runs and its result is returned. -/
theorem c1_fallback_decision_tree_witness :
    (extract "https://youtu.be/dQw4w9WgXcQ"
        (Except.error (ApiExn.noTranscriptFound, "no transcript"))
        (Except.ok ("text", "en", "T"))).calledYtdlp = true := by
  have h := c1_fallback_decision_tree "https://youtu.be/dQw4w9WgXcQ"
    (Except.error (ApiExn.noTranscriptFound, "no transcript"))
    (Except.ok ("text", "en", "T"))
  exact h.2.1.2 ⟨by decide, ApiExn.noTranscriptFound, "no transcript", rfl, Or.inr rfl⟩

/-- C10: `extract` is total at its interface: it is a function into result
dicts (every exception class an inner call can raise is consumed by one of
the three handlers), the dict always carries the boolean `success` key,
a `success = true` dict carries `content`, `language` and `title`, and a
`success = false` dict carries an `error` message. -/
theorem c10_extract_total (url : String)
    (api : Except (ApiExn × String) (String × String × String))
    (ytdlp : Except String (String × String × String)) :
    ((extract url api ytdlp).result.success = true →
      ∃ c l t, (extract url api ytdlp).result.content = some c
        ∧ (extract url api ytdlp).result.language = some l
        ∧ (extract url api ytdlp).result.title = some t)
    ∧ ((extract url api ytdlp).result.success = false →
      ∃ e, (extract url api ytdlp).result.error = some e) := by
  unfold extract
  cases extractVideoId url with
  | none => simp [mkFailure]
  | some vid =>
    rcases api with ⟨exn, msg⟩ | ⟨c, l, t⟩
    · cases exn <;> rcases ytdlp with e | ⟨yc, yl, yt⟩ <;>
        simp [mkFailure, mkSuccess]
    · simp [mkSuccess]

/-- C10 witness: a failing URL produces a `success = false` dict carrying
an error message. -/
theorem c10_extract_total_witness :
    (extract "not a url" (Except.error (ApiExn.otherExn, "boom"))
        (Except.error "boom2")).result.error.isSome = true := by
  have h := (c10_extract_total "not a url"
    (Except.error (ApiExn.otherExn, "boom")) (Except.error "boom2")).2 (by decide)
  obtain ⟨e, he⟩ := h
  simp [he]

/-- C2: over a task lifetime the orchestrator is a linear loop of at most
3 attempts.  The status write trace is PENDING, then PROCESSING once per
executed attempt, then exactly one terminal value (COMPLETED on a
successful attempt, FAILED when all 3 attempts fail) with nothing written
after it; attempt `a` starts by writing progress `25 + 20*a`; the 10-second
delay is slept exactly before each retry (attempts after the first);
success ends with progress 100 and failure of all attempts with
progress 0, which are also the final stored values. -/
theorem c2_retry_orchestrator (o1 o2 o3 : AttemptOutcome) :
    let ws := fullTrace [o1, o2, o3]
    let n := if isSuccess o1 then 1 else if isSuccess o2 then 2 else 3
    let ok := isSuccess o1 || isSuccess o2 || isSuccess o3
    let fin := if ok then TaskStatus.completed else TaskStatus.failed
    statusTrace ws
      = TaskStatus.pending :: (List.replicate n TaskStatus.processing ++ [fin])
    ∧ progressTrace ws
      = 0 :: ((List.range n).map (fun a => 25 + a * 20)
              ++ [if ok then 100 else 0])
    ∧ sleepTrace ws = List.replicate (n - 1) 10
    ∧ (processSubtitleExtraction [o1, o2, o3]).2.status = fin
    ∧ (processSubtitleExtraction [o1, o2, o3]).2.progress
        = (if ok then 100 else 0) := by
  cases o1 <;> cases o2 <;> cases o3 <;>
    simp [fullTrace, processSubtitleExtraction, runLoop, submitWrites, initialTask,
          statusTrace, progressTrace, sleepTrace, isSuccess,
          List.range_succ, List.replicate]

/-- C3 counterexample: a run in which the proxy manager can supply a
nonempty proxy subset, all three attempts fail, and yet the second
(retry) extraction call is routed through no proxy at all — in
particular not through any member of the supplied subset.  (The backend
`main.py` never imports `proxy_manager`; every `extractor.extract` call of
the loop is direct.) -/
theorem c3_counterexample :
    (getMultipleProxies ⟨["http://u:p@1.2.3.4:80"], some 0⟩ 10 none 3 [0]).2 ≠ []
    ∧ extractProxies (fullTrace
        [AttemptOutcome.failure "e1", AttemptOutcome.failure "e2",
         AttemptOutcome.failure "e3"])
      = [none, none, none]
    ∧ ¬ ∃ p ∈ (getMultipleProxies ⟨["http://u:p@1.2.3.4:80"], some 0⟩ 10 none 3 [0]).2,
          (extractProxies (fullTrace
            [AttemptOutcome.failure "e1", AttemptOutcome.failure "e2",
             AttemptOutcome.failure "e3"]))[1]?
            = some (some p) := by
  refine ⟨by decide, by decide, by decide⟩

/-- C3 amended: the retry orchestrator never routes any attempt through a
proxy — every extraction call of every run, retries included, is direct
(carries no proxy), whatever the proxy manager could supply; retries are
separated only by the fixed 10-second delay. -/
theorem c3_no_proxy_rotation (o1 o2 o3 : AttemptOutcome) :
    ∀ p ∈ extractProxies (fullTrace [o1, o2, o3]), p = none := by
  cases o1 <;> cases o2 <;> cases o3 <;>
    simp [fullTrace, processSubtitleExtraction, runLoop, submitWrites, initialTask,
          extractProxies]

/-- C3 amended witness: in a concrete all-fail run the first recorded
extraction call carries no proxy. -/
theorem c3_no_proxy_rotation_witness :
    (extractProxies (fullTrace
        [AttemptOutcome.failure "a", AttemptOutcome.exn "b",
         AttemptOutcome.failure "c"])).head?.getD (some "z") = none := by
  exact c3_no_proxy_rotation (AttemptOutcome.failure "a") (AttemptOutcome.exn "b")
    (AttemptOutcome.failure "c") _ (by decide)

/-- C7: when the first two attempts do not succeed and the third returns a
failure dict with error `e`, the stored user-facing message is the
translation of `e` by the first matching rule, in order: bot/sign-in
(case-insensitive) gives the bot-detection advisory; else 403/forbidden
(forbidden case-insensitively) gives the access-denied advisory; else
"no subtitles" (case-insensitive) gives the fixed no-subtitles message;
else the raw error string. -/
theorem c7_error_translation (o1 o2 : AttemptOutcome) (e : String)
    (h1 : isSuccess o1 = false) (h2 : isSuccess o2 = false) :
    (processSubtitleExtraction [o1, o2, AttemptOutcome.failure e]).2.message
      = translateError e
    ∧ (strContains (pyLower e) "bot" = true ∨ strContains (pyLower e) "sign in" = true →
        translateError e
          = "YouTube 機器人檢測：" ++ e ++ "。建議等待 5-10 分鐘後重試。")
    ∧ (strContains (pyLower e) "bot" = false → strContains (pyLower e) "sign in" = false →
        strContains e "403" = true ∨ strContains (pyLower e) "forbidden" = true →
        translateError e
          = "訪問被拒：" ++ e ++ "。可能是 IP 被暫時限制，請稍後重試。")
    ∧ (strContains (pyLower e) "bot" = false → strContains (pyLower e) "sign in" = false →
        strContains e "403" = false → strContains (pyLower e) "forbidden" = false →
        strContains (pyLower e) "no subtitles" = true →
        translateError e = "此影片沒有可用的字幕。")
    ∧ (strContains (pyLower e) "bot" = false → strContains (pyLower e) "sign in" = false →
        strContains e "403" = false → strContains (pyLower e) "forbidden" = false →
        strContains (pyLower e) "no subtitles" = false →
        translateError e = e) := by
  constructor
  · cases o1 <;> cases o2 <;>
      simp_all [processSubtitleExtraction, runLoop, initialTask, isSuccess]
  · refine ⟨fun h => ?_, fun hb hs h => ?_, fun hb hs h3 hf hn => ?_,
      fun hb hs h3 hf hn => ?_⟩ <;>
      unfold translateError <;>
      rcases h1 with _ <;> simp_all

/-- C7 witness: an all-fail run whose final error mentions a 403, at a
concrete input. -/
theorem c7_error_translation_witness :
    (processSubtitleExtraction
        [AttemptOutcome.failure "x", AttemptOutcome.exn "y",
         AttemptOutcome.failure "HTTP Error 403: Forbidden"]).2.message
      = "訪問被拒：HTTP Error 403: Forbidden。可能是 IP 被暫時限制，請稍後重試。" := by
  have h := c7_error_translation (AttemptOutcome.failure "x") (AttemptOutcome.exn "y")
    "HTTP Error 403: Forbidden" rfl rfl
  rw [h.1]
  exact h.2.2.1 (by decide) (by decide) (Or.inl (by decide))

/-- On an 11-character string the fallback id test accepts exactly the
all-class strings and the 10-class-characters-plus-final-newline strings
(the `$`-before-trailing-newline artifact of `re.match`). -/
theorem reMatch_iff_len11 (cs : List Char) (h : cs.length = 11) :
    reMatchIdDollar cs = true
      ↔ (cs.all idChar = true
          ∨ (cs.getLast? = some '\n' ∧ cs.dropLast.all idChar = true)) := by
  unfold reMatchIdDollar
  by_cases hl : cs.getLast? = some '\n'
  · have hmem : '\n' ∈ cs := by
      have h1 : '\n' ∈ cs.getLast? := by rw [hl]; rfl
      obtain ⟨hne, h2⟩ := List.mem_getLast?_eq_getLast h1
      rw [h2]
      exact List.getLast_mem hne
    have hall : cs.all idChar = false := by
      rw [List.all_eq_false]
      exact ⟨'\n', hmem, by decide⟩
    have hne : cs.dropLast.isEmpty = false := by
      rw [List.isEmpty_eq_false, ← List.length_pos, List.length_dropLast, h]
      decide
    simp [hl, hall, hne]
  · have hne : cs.isEmpty = false := by
      rw [List.isEmpty_eq_false]
      intro h0
      rw [h0] at h
      simp at h
    simp [hl, hne]

/-- C8 counterexample: `"aaaaaaaaaa\n"` matches none of the three URL
patterns and is 11 characters long but is not drawn from
letters/digits/underscore/hyphen (its last character is a newline), yet
`_extract_video_id` returns the string itself — `re.match`'s `$` accepts
the position before a trailing newline. -/
theorem c8_counterexample :
    searchCapture pat1 "aaaaaaaaaa\n".toList = none
    ∧ searchCapture pat2 "aaaaaaaaaa\n".toList = none
    ∧ searchCapture pat3 "aaaaaaaaaa\n".toList = none
    ∧ "aaaaaaaaaa\n".toList.length = 11
    ∧ "aaaaaaaaaa\n".toList.all idChar = false
    ∧ extractVideoId "aaaaaaaaaa\n" = some "aaaaaaaaaa\n" := by
  refine ⟨by decide, by decide, by decide, by decide, by decide, by decide⟩

/-- C8 amended: the extractor returns the first capture of the first
matching pattern among the watch?v=/youtu.be, embed, and /v/ forms; when
no pattern matches it returns the string itself exactly when the string
is 11 characters that either are all letters, digits, underscore or
hyphen, or are 10 such characters followed by one final newline; otherwise
resolution yields nothing and `extract` fails with the no-id error without
calling either external library. -/
theorem c8_video_id_resolution (url : String) :
    (∀ cap, searchCapture pat1 url.toList = some cap →
        extractVideoId url = some (String.mk cap))
    ∧ (searchCapture pat1 url.toList = none →
        ∀ cap, searchCapture pat2 url.toList = some cap →
        extractVideoId url = some (String.mk cap))
    ∧ (searchCapture pat1 url.toList = none →
        searchCapture pat2 url.toList = none →
        ∀ cap, searchCapture pat3 url.toList = some cap →
        extractVideoId url = some (String.mk cap))
    ∧ (searchCapture pat1 url.toList = none →
        searchCapture pat2 url.toList = none →
        searchCapture pat3 url.toList = none →
        ((extractVideoId url = some url
            ↔ url.toList.length = 11
              ∧ (url.toList.all idChar = true
                  ∨ (url.toList.getLast? = some '\n'
                      ∧ url.toList.dropLast.all idChar = true)))
          ∧ (extractVideoId url = none
              ↔ ¬(url.toList.length = 11
                  ∧ (url.toList.all idChar = true
                      ∨ (url.toList.getLast? = some '\n'
                          ∧ url.toList.dropLast.all idChar = true))))))
    ∧ (extractVideoId url = none →
        ∀ api ytdlp, extract url api ytdlp
          = ⟨mkFailure "無法從 URL 中提取影片 ID", false, false⟩) := by
  have hdata : url.data = url.toList := rfl
  have hlen0 : url.length = url.toList.length := rfl
  refine ⟨?_, ?_, ?_, ?_, ?_⟩
  · intro cap h1
    unfold extractVideoId
    simp only [hdata, h1]
  · intro h1 cap h2
    unfold extractVideoId
    simp only [hdata, h1, h2]
  · intro h1 h2 cap h3
    unfold extractVideoId
    simp only [hdata, h1, h2, h3]
  · intro h1 h2 h3
    unfold extractVideoId
    simp only [hdata, hlen0, h1, h2, h3]
    by_cases hlen : url.toList.length = 11
    · cases hr : reMatchIdDollar url.toList with
      | true =>
        have hc := (reMatch_iff_len11 url.toList hlen).1 hr
        have hcnd : (decide (url.toList.length = 11) && true) = true := by
          rw [Bool.and_true, decide_eq_true_eq]
          exact hlen
        rw [if_pos hcnd]
        exact ⟨⟨fun _ => ⟨hlen, hc⟩, fun _ => rfl⟩,
               ⟨fun hn => Option.noConfusion hn,
                fun hn => absurd ⟨hlen, hc⟩ hn⟩⟩
      | false =>
        have hcond : ¬(url.toList.length = 11
            ∧ (url.toList.all idChar = true
                ∨ (url.toList.getLast? = some '\n'
                    ∧ url.toList.dropLast.all idChar = true))) := by
          rintro ⟨-, hcontra⟩
          rw [(reMatch_iff_len11 url.toList hlen).2 hcontra] at hr
          exact Bool.noConfusion hr
        rw [if_neg (by simp)]
        exact ⟨⟨fun hn => Option.noConfusion hn, fun hcc => absurd hcc hcond⟩,
               ⟨fun _ => hcond, fun _ => rfl⟩⟩
    · have hnc : ¬((decide (url.toList.length = 11)
          && reMatchIdDollar url.toList) = true) := by
        intro hbad
        rw [Bool.and_eq_true, decide_eq_true_eq] at hbad
        exact hlen hbad.1
      have hcond : ¬(url.toList.length = 11
          ∧ (url.toList.all idChar = true
              ∨ (url.toList.getLast? = some '\n'
                  ∧ url.toList.dropLast.all idChar = true))) := by
        rintro ⟨h, -⟩
        exact hlen h
      rw [if_neg hnc]
      exact ⟨⟨fun hn => Option.noConfusion hn, fun hcc => absurd hcc hcond⟩,
             ⟨fun _ => hcond, fun _ => rfl⟩⟩
  · intro h0 api ytdlp
    unfold extract
    rw [h0]

/-- C8 amended witness: a plain 11-character id resolves to itself and a
youtu.be URL resolves via the first pattern, at concrete inputs. -/
theorem c8_video_id_resolution_witness :
    extractVideoId "dQw4w9WgXcQ" = some "dQw4w9WgXcQ" := by
  have h := (c8_video_id_resolution "dQw4w9WgXcQ").2.2.2.1
    (by decide) (by decide) (by decide)
  exact h.1.2 ⟨by decide, Or.inl (by decide)⟩

/-- The preference loop returns the earliest preferred language present in
the dict, with its value. -/
theorem firstPref_split (d : SubDict) (pre : List String) :
    ∀ (lang : String) (rest : List String) (lst : List SubFmt),
      (∀ l ∈ pre, List.lookup l d = none) → List.lookup lang d = some lst →
      firstPref (pre ++ lang :: rest) d = some (lang, lst) := by
  induction pre with
  | nil =>
    intro lang rest lst _ hl
    simp [firstPref, hl]
  | cons a pre ih =>
    intro lang rest lst hpre hl
    have ha : List.lookup a d = none := hpre a (List.mem_cons_self a pre)
    simp only [List.cons_append, firstPref, ha]
    exact ih lang rest lst (fun l hlm => hpre l (List.mem_cons_of_mem a hlm)) hl

/-- The preference loop finds nothing when no preferred language is in the
dict. -/
theorem firstPref_none (d : SubDict) :
    ∀ prefs : List String, (∀ l ∈ prefs, List.lookup l d = none) →
      firstPref prefs d = none := by
  intro prefs
  induction prefs with
  | nil => intro _; rfl
  | cons a pre ih =>
    intro h
    have ha : List.lookup a d = none := h a (List.mem_cons_self a pre)
    simp only [firstPref, ha]
    exact ih (fun l hlm => h l (List.mem_cons_of_mem a hlm))

/-- C4: `_get_best_subtitles` selects in the fixed priority order: the
manual track of the earliest preferred language having one (regardless of
what the automatic captions offer — a manual track in any preferred
language beats an automatic track in every preferred language); otherwise
the automatic track of the earliest preferred language having one;
otherwise the first manual track; otherwise the first automatic track;
otherwise no result. -/
theorem c4_best_subtitles (prefs : List String) (subs autos : SubDict) :
    (∀ pre lang rest lst, prefs = pre ++ lang :: rest →
        (∀ l ∈ pre, List.lookup l subs = none) →
        List.lookup lang subs = some lst →
        getBestSubtitles prefs subs autos = fetchSubtitleContent lst lang)
    ∧ ((∀ l ∈ prefs, List.lookup l subs = none) →
        ∀ pre lang rest lst, prefs = pre ++ lang :: rest →
        (∀ l ∈ pre, List.lookup l autos = none) →
        List.lookup lang autos = some lst →
        getBestSubtitles prefs subs autos
          = fetchSubtitleContent lst (lang ++ " (Auto-generated)"))
    ∧ ((∀ l ∈ prefs, List.lookup l subs = none ∧ List.lookup l autos = none) →
        ∀ lang lst tl, subs = (lang, lst) :: tl →
        getBestSubtitles prefs subs autos = fetchSubtitleContent lst lang)
    ∧ ((∀ l ∈ prefs, List.lookup l subs = none ∧ List.lookup l autos = none) →
        subs = [] →
        ∀ lang lst tl, autos = (lang, lst) :: tl →
        getBestSubtitles prefs subs autos
          = fetchSubtitleContent lst (lang ++ " (Auto-generated)"))
    ∧ (subs = [] → autos = [] → getBestSubtitles prefs subs autos = none) := by
  refine ⟨?_, ?_, ?_, ?_, ?_⟩
  · intro pre lang rest lst hsplit hpre hl
    subst hsplit
    have h1 := firstPref_split subs pre lang rest lst hpre hl
    simp [getBestSubtitles, h1]
  · intro hsubs pre lang rest lst hsplit hpre hl
    have h1 := firstPref_none subs prefs hsubs
    subst hsplit
    have h2 := firstPref_split autos pre lang rest lst hpre hl
    simp [getBestSubtitles, h1, h2]
  · intro hboth lang lst tl hsubs
    subst hsubs
    have h1 := firstPref_none _ prefs (fun l hl => (hboth l hl).1)
    have h2 := firstPref_none autos prefs (fun l hl => (hboth l hl).2)
    simp [getBestSubtitles, h1, h2]
  · intro hboth hsubs lang lst tl hautos
    subst hsubs
    subst hautos
    have h1 := firstPref_none [] prefs (fun l hl => (hboth l hl).1)
    have h2 := firstPref_none _ prefs (fun l hl => (hboth l hl).2)
    simp [getBestSubtitles, h1, h2]
  · intro hsubs hautos
    subst hsubs
    subst hautos
    have h1 := firstPref_none [] prefs (fun l _ => rfl)
    simp [getBestSubtitles, h1]

/-- C4 witness: the manual English track wins over the automatic zh-TW
track even though zh-TW is the more preferred language. -/
theorem c4_best_subtitles_witness :
    getBestSubtitles ["zh-TW", "en"]
        [("en", [⟨"vtt", "manual text", none⟩])]
        [("zh-TW", [⟨"vtt", "auto text", none⟩])]
      = fetchSubtitleContent [⟨"vtt", "manual text", none⟩] "en" := by
  exact (c4_best_subtitles ["zh-TW", "en"]
      [("en", [⟨"vtt", "manual text", none⟩])]
      [("zh-TW", [⟨"vtt", "auto text", none⟩])]).1
    ["zh-TW"] "en" [] [⟨"vtt", "manual text", none⟩]
    rfl (by decide) (by decide)

/-- A sample at in-range positions returns one element per position. -/
theorem pySample_length (l : List String) :
    ∀ idxs : List Nat, (∀ i ∈ idxs, i < l.length) →
      (pySample l idxs).length = idxs.length := by
  intro idxs
  induction idxs with
  | nil => intro _; rfl
  | cons i is ih =>
    intro h
    have hi : i < l.length := h i (List.mem_cons_self i is)
    have hrest := ih (fun j hj => h j (List.mem_cons_of_mem i hj))
    unfold pySample at hrest ⊢
    rw [List.filterMap_cons, List.getElem?_eq_getElem hi]
    simp [hrest]

/-- Every sampled element comes from the population. -/
theorem pySample_subset (l : List String) (idxs : List Nat) :
    ∀ p ∈ pySample l idxs, p ∈ l := by
  intro p hp
  unfold pySample at hp
  rw [List.mem_filterMap] at hp
  obtain ⟨i, _, hi⟩ := hp
  exact List.getElem?_mem hi

/-- Sampling a duplicate-free population at pairwise-distinct positions
yields pairwise-distinct values. -/
theorem pySample_nodup (l : List String) (hl : l.Nodup) :
    ∀ idxs : List Nat, idxs.Nodup → (pySample l idxs).Nodup := by
  intro idxs
  induction idxs with
  | nil => intro _; exact List.nodup_nil
  | cons i is ih =>
    intro h
    rw [List.nodup_cons] at h
    obtain ⟨hni, hnis⟩ := h
    unfold pySample
    rw [List.filterMap_cons]
    cases hgi : l[i]? with
    | none => exact ih hnis
    | some a =>
      rw [List.nodup_cons]
      refine ⟨?_, ih hnis⟩
      intro hmem
      rw [List.mem_filterMap] at hmem
      obtain ⟨j, hj, hgj⟩ := hmem
      have hilt : i < l.length := (List.getElem?_eq_some.1 hgi).1
      have hij : i = j := List.getElem?_inj hilt hl (by rw [hgi, hgj])
      exact hni (hij ▸ hj)

/-- C5 counterexample: a fresh cache holding the same proxy endpoint on
two lines.  `get_multiple_proxies(2)` performs no re-fetch, draws the two
distinct positions, and returns `min(2, 2) = 2` elements that are **not**
pairwise distinct — `random.sample` samples positions, not values. -/
theorem c5_counterexample :
    validSample ["http://u:p@h:1", "http://u:p@h:1"] (min 2 2) [0, 1]
    ∧ shouldRefresh ⟨["http://u:p@h:1", "http://u:p@h:1"], some 0⟩ 10 = false
    ∧ (getMultipleProxies ⟨["http://u:p@h:1", "http://u:p@h:1"], some 0⟩
          10 none 2 [0, 1]).2
        = ["http://u:p@h:1", "http://u:p@h:1"]
    ∧ ¬ (getMultipleProxies ⟨["http://u:p@h:1", "http://u:p@h:1"], some 0⟩
          10 none 2 [0, 1]).2.Nodup := by
  refine ⟨⟨by decide, by decide, by decide⟩, by decide, by decide, by decide⟩

/-- C5 amended: the cache refresh fires exactly when the cached list is
empty, no fetch has ever succeeded, or more than one hour (3600 s) has
passed since the last successful fetch — in both `get_random_proxy` and
`get_multiple_proxies`; and for every count `n`,
`get_multiple_proxies(n)` returns `min(n, size)` elements of the
(post-refresh) cached list drawn at pairwise-distinct positions, hence
pairwise-distinct values whenever the cached list has no duplicate
entries, and the empty list when the cache is empty. -/
theorem c5_proxy_cache (st : ProxyState) (now : Nat) (response : Option String)
    (count : Nat) (idxs : List Nat) :
    (shouldRefresh st now = true
      ↔ st.proxy_list = [] ∨ st.last_fetch = none
        ∨ ∃ t, st.last_fetch = some t ∧ now - t > 3600)
    ∧ (getMultipleProxies st now response count idxs).1
        = refreshedState st now response
    ∧ (∀ idx, (getRandomProxy st now response idx).1
        = refreshedState st now response)
    ∧ ((refreshedState st now response).proxy_list = [] →
        (getMultipleProxies st now response count idxs).2 = [])
    ∧ (validSample (refreshedState st now response).proxy_list
          (min count (refreshedState st now response).proxy_list.length) idxs →
        (getMultipleProxies st now response count idxs).2.length
            = min count (refreshedState st now response).proxy_list.length
        ∧ (∀ p ∈ (getMultipleProxies st now response count idxs).2,
              p ∈ (refreshedState st now response).proxy_list)
        ∧ ((refreshedState st now response).proxy_list.Nodup →
            (getMultipleProxies st now response count idxs).2.Nodup)) := by
  refine ⟨?_, ?_, ?_, ?_, ?_⟩
  · unfold shouldRefresh
    cases hl : st.proxy_list with
    | nil => simp
    | cons a tl =>
      cases hf : st.last_fetch with
      | none => simp
      | some t =>
        simp only [List.isEmpty_cons, if_false, Bool.false_eq_true]
        constructor
        · intro h
          exact Or.inr (Or.inr ⟨t, rfl, by simpa [cacheDurationSecs] using h⟩)
        · rintro (h | h | ⟨t2, ht2, hgt⟩)
          · exact absurd h (by simp)
          · exact Option.noConfusion h
          · cases ht2
            simpa [cacheDurationSecs] using hgt
  · unfold getMultipleProxies
    cases hem : (refreshedState st now response).proxy_list.isEmpty <;> simp [hem]
  · intro idx
    unfold getRandomProxy
    cases hem : (refreshedState st now response).proxy_list.isEmpty <;> simp [hem]
  · intro hempty
    unfold getMultipleProxies
    simp [hempty]
  · intro hv
    obtain ⟨hnd, hlt, hlen⟩ := hv
    have hemlem : (getMultipleProxies st now response count idxs).2
        = pySample (refreshedState st now response).proxy_list
            (idxs.take (min count (refreshedState st now response).proxy_list.length)) := by
      unfold getMultipleProxies
      cases hem : (refreshedState st now response).proxy_list.isEmpty with
      | true =>
        rw [List.isEmpty_iff] at hem
        have hidx : idxs = [] := by
          rw [hem] at hlen
          simp only [List.length_nil, Nat.min_zero] at hlen
          exact List.length_eq_zero.1 hlen
        subst hidx
        simp [hem, pySample]
      | false => simp [hem]
    rw [hemlem]
    have htake : idxs.take (min count (refreshedState st now response).proxy_list.length)
        = idxs := List.take_of_length_le (by rw [hlen])
    rw [htake]
    refine ⟨?_, pySample_subset _ idxs, fun hnodup => pySample_nodup _ hnodup idxs hnd⟩
    rw [pySample_length _ idxs hlt, hlen]

/-- C5 amended witness: a three-element duplicate-free cache, fetched
within the hour, hands out exactly `min(2, 3) = 2` of its members without
refreshing. -/
theorem c5_proxy_cache_witness :
    (getMultipleProxies ⟨["http://a:a@h:1", "http://b:b@h:2", "http://c:c@h:3"], some 100⟩
        200 none 2 [2, 0]).2.length = 2 := by
  have h := (c5_proxy_cache
      ⟨["http://a:a@h:1", "http://b:b@h:2", "http://c:c@h:3"], some 100⟩
      200 none 2 [2, 0]).2.2.2.2 ⟨by decide, by decide, by decide⟩
  exact h.1

/-- Left fold of append over a list of strings appends its join. -/
theorem foldl_append_join (l : List String) :
    ∀ acc : String, l.foldl (· ++ ·) acc = acc ++ String.join l := by
  induction l with
  | nil => intro acc; exact (String.append_empty acc).symm
  | cons x xs ih =>
    intro acc
    rw [List.foldl_cons, ih (acc ++ x)]
    have hx : String.join (x :: xs) = x ++ String.join xs := by
      show List.foldl (· ++ ·) "" (x :: xs) = x ++ String.join xs
      rw [List.foldl_cons, String.empty_append, ih x]
    rw [hx, String.append_assoc]

/-- Join of a cons. -/
theorem join_cons (x : String) (xs : List String) :
    String.join (x :: xs) = x ++ String.join xs := by
  show List.foldl (· ++ ·) "" (x :: xs) = x ++ String.join xs
  rw [List.foldl_cons, String.empty_append, foldl_append_join xs x]

/-- The conditional-append accumulation pattern of the VTT/SRT loop equals
filter-then-map. -/
theorem foldl_if_filter_map {α β : Type} (p : α → Bool) (g : α → β) (xs : List α) :
    ∀ acc : List β,
      xs.foldl (fun a x => if p x then a ++ [g x] else a) acc
        = acc ++ (xs.filter p).map g := by
  induction xs with
  | nil => intro acc; simp
  | cons x xs ih =>
    intro acc
    by_cases hp : p x <;>
      simp [List.foldl_cons, hp, ih, List.filter_cons]

/-- The string-accumulation pattern of the inner segment loop equals
joining the mapped list. -/
theorem foldl_append_map_join (g : Seg → String) (segs : List Seg) :
    ∀ acc : String,
      segs.foldl (fun a s => a ++ g s) acc = acc ++ String.join (segs.map g) := by
  induction segs with
  | nil => intro acc; exact (String.append_empty acc).symm
  | cons s ss ih =>
    intro acc
    rw [List.foldl_cons, ih (acc ++ g s), List.map_cons, join_cons,
        String.append_assoc]

/-- The event loop of the JSON3 branch accumulates exactly the claimed
concatenation. -/
theorem json3Text_fold (events : List Json3Event) :
    ∀ acc : String,
      events.foldl
        (fun acc ev =>
          match ev.segs with
          | none => acc
          | some segs => segs.foldl (fun a s => a ++ s.utf8.getD "") acc) acc
        = acc ++ claimedJson3Text events := by
  induction events with
  | nil => intro acc; exact (String.append_empty acc).symm
  | cons ev evs ih =>
    intro acc
    rw [List.foldl_cons]
    cases hs : ev.segs with
    | none =>
      rw [ih]
      unfold claimedJson3Text
      rw [List.filterMap_cons]
      simp only [hs]
    | some segs =>
      simp only [hs]
      rw [foldl_append_map_join (fun s => s.utf8.getD "") segs acc, ih]
      unfold claimedJson3Text
      rw [List.filterMap_cons]
      simp only [hs]
      rw [List.map_cons, join_cons, String.append_assoc]

/-- C9: the normalised text of `_fetch_subtitle_content` is, for the
VTT/SRT branch, exactly the stripped nonempty lines without `-->` and not
made of digits, in order, joined with newlines; and for the JSON3 branch
exactly the in-order concatenation of the `utf8` fields of all segments of
all events that have segments. -/
theorem c9_payload_normalisation (f : SubFmt) (rest : List SubFmt)
    (lang content : String) (events : List Json3Event) :
    vttText content = claimedVttText content
    ∧ json3Text events = claimedJson3Text events
    ∧ (f.ext ≠ "json3" →
        fetchSubtitleContent (f :: rest) lang = some (vttText f.textPayload, lang))
    ∧ (f.ext = "json3" → f.jsonPayload = some events →
        fetchSubtitleContent (f :: rest) lang = some (json3Text events, lang))
    ∧ fetchSubtitleContent [] lang = none := by
  refine ⟨?_, ?_, ?_, ?_, rfl⟩
  · simp only [vttText, claimedVttText]
    rw [foldl_if_filter_map vttKeep pyStripS (pySplitChar '\n' content) []]
    rw [List.nil_append]
  · unfold json3Text
    rw [json3Text_fold events "", String.empty_append]
  · intro hext
    unfold fetchSubtitleContent
    simp [hext]
  · intro hext hjson
    unfold fetchSubtitleContent
    simp [hext, hjson]

/-- C9 witness: a concrete SRT-style payload is reduced to its stripped
text lines. -/
theorem c9_payload_normalisation_witness :
    fetchSubtitleContent
        [⟨"srt", "1\n00:00:01,000 --> 00:00:02,000\n Hello \nWorld\n", none⟩] "en"
      = some ("Hello\nWorld", "en") := by
  rw [(c9_payload_normalisation
      ⟨"srt", "1\n00:00:01,000 --> 00:00:02,000\n Hello \nWorld\n", none⟩
      [] "en" "x" []).2.2.1 (by decide)]
  decide

end YSE
